import Mathlib

/-!
Shallow embedding of src/chapter_2/context_managers.py and the tuple assert
of src/chapter_2/assertions.py.

The Python file demonstrates scoped resource management:
a class-based context manager `ManagedFile` (methods `__enter__`/`__exit__`),
a generator-based `managed_file` built with `@contextmanager`,
a counting `Indenter`, and a wall-clock `Timer`.

The embedding models the effects visible to a caller of a `with` block:
which file object exists afterwards (its written content and closed flag),
the event trace (open, write, close), and the exception the caller observes.
The host environment is a parameter: whether `open(name, "w")` succeeds and
whether `file.close()` reports an I/O failure while flushing.  Python
semantics that matter here and are encoded below:

* an exception raised in `__exit__` or in a `finally` block replaces an
  exception that is already propagating;
* `open` inside `try` means a failed `open` leaves the local `f` unbound, so
  the `finally` clause `f.close()` raises `UnboundLocalError`;
* an attribute that was never assigned (`self.file` when `__enter__` failed
  at `open`) raises `AttributeError` on access;
* `file.close()` marks the file closed even when flushing fails, and closing
  an already closed file is a no-op;
* a file object is always truthy, so the guard `if self.file:` passes
  whenever the attribute is set.
-/

/-- Exceptions a caller of one of these scopes can observe. -/
inductive PyErr where
  | acquisitionError
  | operationError
  | releaseError
  | attributeError
  | nameError
  | assertionError
deriving DecidableEq, Repr

/-- Observable resource events, in the order they happen. -/
inductive Event where
  | openEv (name : String)
  | writeEv (s : String)
  | closeEv
deriving DecidableEq, Repr

/-- A Python file object opened with mode "w": the chunks written so far,
in order, and the closed flag. -/
structure FileObj where
  name : String
  content : List String
  closed : Bool
deriving DecidableEq, Repr

/-- The host environment: which names `open(name, "w")` can open, and
whether `file.close()` raises while flushing buffered data. -/
structure Env where
  canOpen : String → Bool
  closeRaises : Bool

/-- Model of `open(name, "w")`: truncating open that yields a fresh open
file object, or raises when the target cannot be opened. -/
def openFile (env : Env) (name : String) : Except PyErr FileObj :=
  if env.canOpen name then
    Except.ok { name := name, content := [], closed := false }
  else
    Except.error PyErr.acquisitionError

/-- Model of `file.close()`: a no-op on a closed file; otherwise the file
becomes closed and, when the environment makes the flush fail, a
release-side exception is raised as well. -/
def closeFile (env : Env) (f : FileObj) : FileObj × Option PyErr :=
  if f.closed then
    (f, none)
  else
    ({ f with closed := true },
     if env.closeRaises then some PyErr.releaseError else none)

/-- One step of the caller-supplied body of a `with` block. -/
inductive Act where
  | write (s : String)
  | raiseOp
  | earlyExit
deriving DecidableEq, Repr

/-- How the body of a `with` block finished. -/
inductive Outcome where
  | completed
  | early
  | raised (e : PyErr)
deriving DecidableEq, Repr

/-- Run the body on the open file: writes append to the content and are
recorded in the trace; `raiseOp` raises an operation error; `earlyExit`
leaves the block via `return`/`break`.  Returns the outcome, the file
after the writes, and the trace of write events. -/
def runBody : List Act → FileObj → Outcome × FileObj × List Event
  | [], f => (Outcome.completed, f, [])
  | Act.write s :: rest, f =>
      let r := runBody rest { f with content := f.content ++ [s] }
      (r.1, r.2.1, Event.writeEv s :: r.2.2)
  | Act.raiseOp :: _, f => (Outcome.raised PyErr.operationError, f, [])
  | Act.earlyExit :: _, f => (Outcome.early, f, [])

/-- The outcome of a body, which depends only on the actions. -/
def bodyOutcome : List Act → Outcome
  | [] => Outcome.completed
  | Act.write _ :: rest => bodyOutcome rest
  | Act.raiseOp :: _ => Outcome.raised PyErr.operationError
  | Act.earlyExit :: _ => Outcome.early

/-- The `ManagedFile` class.  `file = none` models the state in which the
attribute `self.file` was never assigned (as after `__init__`, or after
`__enter__` failed at `open`). -/
structure ManagedFile where
  name : String
  file : Option FileObj
deriving DecidableEq, Repr

/-- `ManagedFile.__enter__`: `self.file = open(self.name, "w"); return self.file`.
When `open` raises, `self.file` stays unassigned and the exception
propagates. -/
def ManagedFile.enter (env : Env) (m : ManagedFile) :
    Except PyErr (ManagedFile × FileObj) :=
  match openFile env m.name with
  | Except.error e => Except.error e
  | Except.ok f => Except.ok ({ m with file := some f }, f)

/-- `ManagedFile.__exit__`: `if self.file: self.file.close()`.  Reading an
unassigned `self.file` raises `AttributeError`; when it is assigned the
file object is truthy, so the guard passes and `close` runs.  Returns the
object after the call and the exception it raised, if any. -/
def ManagedFile.exit (env : Env) (m : ManagedFile) :
    ManagedFile × Option PyErr :=
  match m.file with
  | none => (m, some PyErr.attributeError)
  | some f =>
      let r := closeFile env f
      ({ m with file := some r.1 }, r.2)

/-- What the caller of the `with` block observes, given the exception the
release step raised (if any) and the body outcome: an exception raised
during release replaces a propagating body exception; otherwise a body
exception propagates; normal and early exits return cleanly. -/
def scopeExitResult (closeErr : Option PyErr) (o : Outcome) : Except PyErr Unit :=
  match closeErr with
  | some r => Except.error r
  | none =>
      match o with
      | Outcome.raised e => Except.error e
      | _ => Except.ok ()

deriving instance DecidableEq for Except

/-- The observable result of running a whole `with` block. -/
structure RunResult where
  result : Except PyErr Unit
  finalFile : Option FileObj
  trace : List Event
deriving DecidableEq, Repr

/-- `with ManagedFile(name) as f: body` — `__enter__` runs first; if it
raises, `__exit__` is never called and the exception propagates with no
scope entered.  Otherwise the body runs on the returned file and
`__exit__` runs on every exit path. -/
def withManagedFile (env : Env) (name : String) (body : List Act) : RunResult :=
  match ManagedFile.enter env { name := name, file := none } with
  | Except.error e => { result := Except.error e, finalFile := none, trace := [] }
  | Except.ok mf =>
      let r := runBody body mf.2
      let ex := ManagedFile.exit env { mf.1 with file := some r.2.1 }
      { result := scopeExitResult ex.2 r.1,
        finalFile := ex.1.file,
        trace := Event.openEv name :: (r.2.2 ++ [Event.closeEv]) }

/-- `with managed_file(name) as f: body` — the generator opens the file
inside `try`, yields it, and closes it in `finally`.  When `open` raises,
the `finally` clause still runs and `f.close()` on the unbound local `f`
raises `UnboundLocalError` (a `NameError`), which replaces the open
failure.  After a successful open the behaviour matches `ManagedFile`. -/
def withManagedFileGen (env : Env) (name : String) (body : List Act) : RunResult :=
  match openFile env name with
  | Except.error _ =>
      { result := Except.error PyErr.nameError, finalFile := none, trace := [] }
  | Except.ok f0 =>
      let r := runBody body f0
      let c := closeFile env r.2.1
      { result := scopeExitResult c.2 r.1,
        finalFile := some c.1,
        trace := Event.openEv name :: (r.2.2 ++ [Event.closeEv]) }

/-- Number of close events in a trace. -/
def countClose : List Event → Nat
  | [] => 0
  | Event.closeEv :: rest => countClose rest + 1
  | _ :: rest => countClose rest

/-- The last event of a trace, if any. -/
def lastEvent : List Event → Option Event
  | [] => none
  | [e] => some e
  | _ :: e :: rest => lastEvent (e :: rest)

/-- An environment in which every open succeeds and close never fails. -/
def okEnv : Env := { canOpen := fun _ => true, closeRaises := false }

/-- An environment in which no open succeeds. -/
def failEnv : Env := { canOpen := fun _ => false, closeRaises := false }

/-- An environment in which opens succeed but close fails while flushing. -/
def maskEnv : Env := { canOpen := fun _ => true, closeRaises := true }

/-- The text a file object holds after the scope: the written chunks in
order. -/
def fileContent (f : FileObj) : String :=
  String.join f.content

/-- The `Indenter` class: `__init__` sets `self.level = 0`; Python integers
are unbounded, so the level is an integer. -/
structure Indenter where
  level : Int
deriving DecidableEq, Repr

/-- `Indenter.__init__`. -/
def Indenter.init : Indenter := { level := 0 }

/-- `Indenter.__enter__`: `self.level += 1`. -/
def Indenter.enter (i : Indenter) : Indenter := { level := i.level + 1 }

/-- `Indenter.__exit__`: `self.level -= 1`. -/
def Indenter.exit (i : Indenter) : Indenter := { level := i.level - 1 }

/-- A sequence of nested scope entries and exits on one shared indenter. -/
inductive ScopeOp where
  | enter
  | exit
deriving DecidableEq, Repr

/-- Apply a sequence of enter/exit operations to an indenter. -/
def applyOps (i : Indenter) : List ScopeOp → Indenter
  | [] => i
  | ScopeOp.enter :: rest => applyOps i.enter rest
  | ScopeOp.exit :: rest => applyOps i.exit rest

/-- Number of enter operations in a sequence. -/
def countEnters : List ScopeOp → Nat
  | [] => 0
  | ScopeOp.enter :: rest => countEnters rest + 1
  | ScopeOp.exit :: rest => countEnters rest

/-- Number of exit operations in a sequence. -/
def countExits : List ScopeOp → Nat
  | [] => 0
  | ScopeOp.enter :: rest => countExits rest
  | ScopeOp.exit :: rest => countExits rest + 1

/-- The `Timer` class: `__init__` sets `self.start = None` and
`self.end = None` (the second field is called `stop` here because `end` is
a reserved word in Lean).  Timestamps are integers in abstract clock
units. -/
structure Timer where
  start : Option Int
  stop : Option Int
deriving DecidableEq, Repr

/-- `Timer.__init__`. -/
def Timer.init : Timer := { start := none, stop := none }

/-- `Timer.__enter__`: `self.start = datetime.utcnow()`, with the current
wall-clock reading passed in. -/
def Timer.enter (t : Timer) (now : Int) : Timer := { t with start := some now }

/-- `Timer.__exit__`: `self.end = datetime.utcnow()`, with the current
wall-clock reading passed in. -/
def Timer.exit (t : Timer) (now : Int) : Timer := { t with stop := some now }

/-- The duration `self.end - self.start` printed by `__exit__`, available
once both events have happened. -/
def Timer.elapsed (t : Timer) : Option Int :=
  match t.start, t.stop with
  | some a, some b => some (b - a)
  | _, _ => none

/-- A full `with Timer() as timer:` block: `__enter__` reads the clock at
time `enterTime`, the body runs (`print`, `time.sleep(5)`, `print`), and
`__exit__` reads the clock at time `exitTime`. -/
def withTimer (enterTime exitTime : Int) : Timer :=
  Timer.exit (Timer.enter Timer.init enterTime) exitTime

/-- The fragment of Python values needed for the tuple assert: booleans,
strings and tuples. -/
inductive PyVal where
  | bool (b : Bool)
  | str (s : String)
  | tuple (xs : List PyVal)

/-- Python truthiness: a boolean is itself, a string is truthy when
non-empty, a tuple is truthy when non-empty. -/
def truthy : PyVal → Bool
  | PyVal.bool b => b
  | PyVal.str s => !s.isEmpty
  | PyVal.tuple xs => !xs.isEmpty

/-- The `assert` statement: nothing happens when the tested expression is
truthy, otherwise `AssertionError` is raised. -/
def assertStmt (cond : PyVal) : Except PyErr Unit :=
  if truthy cond then Except.ok () else Except.error PyErr.assertionError

/-- The module-level statement `assert (1 == 2, "This should fail...")`:
the tested expression is the two-element tuple, not the comparison. -/
def moduleAssert : Except PyErr Unit :=
  assertStmt (PyVal.tuple
    [PyVal.bool (decide ((1 : Nat) = 2)), PyVal.str "This should fail..."])

/-- The body trace consists of write events only. -/
theorem runBody_trace_writes (body : List Act) (f : FileObj) :
    ∃ ws : List String, (runBody body f).2.2 = ws.map Event.writeEv := by
  induction body generalizing f with
  | nil => exact ⟨[], rfl⟩
  | cons a rest ih =>
    cases a with
    | write s =>
      obtain ⟨ws, hws⟩ := ih { f with content := f.content ++ [s] }
      exact ⟨s :: ws, by simp [runBody, hws]⟩
    | raiseOp => exact ⟨[], rfl⟩
    | earlyExit => exact ⟨[], rfl⟩

/-- The outcome of the body depends only on the actions, not on the file. -/
theorem runBody_outcome (body : List Act) (f : FileObj) :
    (runBody body f).1 = bodyOutcome body := by
  induction body generalizing f with
  | nil => rfl
  | cons a rest ih =>
    cases a with
    | write s => simp [runBody, bodyOutcome, ih]
    | raiseOp => rfl
    | earlyExit => rfl

/-- Running the body does not change the closed flag of the file. -/
theorem runBody_closed (body : List Act) (f : FileObj) :
    (runBody body f).2.1.closed = f.closed := by
  induction body generalizing f with
  | nil => rfl
  | cons a rest ih =>
    cases a with
    | write s => simp [runBody, ih]
    | raiseOp => rfl
    | earlyExit => rfl

/-- A trace of write events contains no close event. -/
theorem countClose_map_writeEv (ws : List String) :
    countClose (ws.map Event.writeEv) = 0 := by
  induction ws with
  | nil => rfl
  | cons s ws ih => simpa [countClose] using ih

/-- Close events add up over concatenation. -/
theorem countClose_append (l1 l2 : List Event) :
    countClose (l1 ++ l2) = countClose l1 + countClose l2 := by
  induction l1 with
  | nil => simp [countClose]
  | cons e l ih =>
    cases e with
    | openEv s => simp [countClose, ih]
    | writeEv s => simp [countClose, ih]
    | closeEv =>
      simp [countClose, ih]
      omega

/-- The last event of a trace ending in `e` is `e`. -/
theorem lastEvent_concat (l : List Event) (e : Event) :
    lastEvent (l ++ [e]) = some e := by
  induction l with
  | nil => rfl
  | cons a l ih =>
    cases l with
    | nil => rfl
    | cons b l2 => simpa [lastEvent] using ih

/-- Normal form of the class-based scope when the open succeeds. -/
theorem withManagedFile_open (env : Env) (name : String) (body : List Act)
    (h : env.canOpen name = true) :
    withManagedFile env name body =
      { result := scopeExitResult
          (closeFile env
            (runBody body { name := name, content := [], closed := false }).2.1).2
          (bodyOutcome body),
        finalFile := some (closeFile env
          (runBody body { name := name, content := [], closed := false }).2.1).1,
        trace := Event.openEv name ::
          ((runBody body { name := name, content := [], closed := false }).2.2
            ++ [Event.closeEv]) } := by
  simp [withManagedFile, ManagedFile.enter, openFile, h, ManagedFile.exit,
    runBody_outcome]

/-- Normal form of the generator-based scope when the open succeeds: it
coincides with the class-based one. -/
theorem withManagedFileGen_open (env : Env) (name : String) (body : List Act)
    (h : env.canOpen name = true) :
    withManagedFileGen env name body =
      { result := scopeExitResult
          (closeFile env
            (runBody body { name := name, content := [], closed := false }).2.1).2
          (bodyOutcome body),
        finalFile := some (closeFile env
          (runBody body { name := name, content := [], closed := false }).2.1).1,
        trace := Event.openEv name ::
          ((runBody body { name := name, content := [], closed := false }).2.2
            ++ [Event.closeEv]) } := by
  simp [withManagedFileGen, openFile, h, runBody_outcome]

/-- Normal form of the class-based scope when the open fails. -/
theorem withManagedFile_openFail (env : Env) (name : String) (body : List Act)
    (h : env.canOpen name = false) :
    withManagedFile env name body =
      { result := Except.error PyErr.acquisitionError, finalFile := none,
        trace := [] } := by
  simp [withManagedFile, ManagedFile.enter, openFile, h]

/-- Normal form of the generator-based scope when the open fails. -/
theorem withManagedFileGen_openFail (env : Env) (name : String) (body : List Act)
    (h : env.canOpen name = false) :
    withManagedFileGen env name body =
      { result := Except.error PyErr.nameError, finalFile := none,
        trace := [] } := by
  simp [withManagedFileGen, openFile, h]

/-- The level after a sequence of operations is the initial level plus the
net number of unmatched enters. -/
theorem applyOps_level (i : Indenter) (ops : List ScopeOp) :
    (applyOps i ops).level = i.level + countEnters ops - countExits ops := by
  induction ops generalizing i with
  | nil => simp [applyOps, countEnters, countExits]
  | cons op rest ih =>
    cases op with
    | enter =>
      simp [applyOps, countEnters, countExits, ih, Indenter.enter]
      ring
    | exit =>
      simp [applyOps, countEnters, countExits, ih, Indenter.exit]
      ring

/-- Enter counts add up over concatenation. -/
theorem countEnters_append (l1 l2 : List ScopeOp) :
    countEnters (l1 ++ l2) = countEnters l1 + countEnters l2 := by
  induction l1 with
  | nil => simp [countEnters]
  | cons op l ih =>
    cases op with
    | enter =>
      simp [countEnters, ih]
      omega
    | exit => simp [countEnters, ih]

/-- Exit counts add up over concatenation. -/
theorem countExits_append (l1 l2 : List ScopeOp) :
    countExits (l1 ++ l2) = countExits l1 + countExits l2 := by
  induction l1 with
  | nil => simp [countExits]
  | cons op l ih =>
    cases op with
    | enter => simp [countExits, ih]
    | exit =>
      simp [countExits, ih]
      omega

/-- Enter count of a block of enters. -/
theorem countEnters_replicate_enter (n : Nat) :
    countEnters (List.replicate n ScopeOp.enter) = n := by
  induction n with
  | zero => rfl
  | succ n ih => simp [List.replicate_succ, countEnters, ih]

/-- Enter count of a block of exits. -/
theorem countEnters_replicate_exit (n : Nat) :
    countEnters (List.replicate n ScopeOp.exit) = 0 := by
  induction n with
  | zero => rfl
  | succ n ih => simp [List.replicate_succ, countEnters, ih]

/-- Exit count of a block of enters. -/
theorem countExits_replicate_enter (n : Nat) :
    countExits (List.replicate n ScopeOp.enter) = 0 := by
  induction n with
  | zero => rfl
  | succ n ih => simp [List.replicate_succ, countExits, ih]

/-- Exit count of a block of exits. -/
theorem countExits_replicate_exit (n : Nat) :
    countExits (List.replicate n ScopeOp.exit) = n := by
  induction n with
  | zero => rfl
  | succ n ih => simp [List.replicate_succ, countExits, ih]

/-- C1: for every scope entered successfully, and for every exit path of
the body — normal completion, early exit, or an operation failure — both
the class-based and the generator-based manager execute the release step
exactly once, and it is the last event of the scope, after all user
operations. -/
theorem release_runs_exactly_once_after_ops (env : Env) (name : String)
    (body : List Act) (h : env.canOpen name = true) :
    countClose (withManagedFile env name body).trace = 1 ∧
    lastEvent (withManagedFile env name body).trace = some Event.closeEv ∧
    countClose (withManagedFileGen env name body).trace = 1 ∧
    lastEvent (withManagedFileGen env name body).trace = some Event.closeEv := by
  obtain ⟨ws, hws⟩ :=
    runBody_trace_writes body { name := name, content := [], closed := false }
  rw [withManagedFile_open env name body h, withManagedFileGen_open env name body h]
  have hcount :
      countClose (Event.openEv name ::
        (ws.map Event.writeEv ++ [Event.closeEv])) = 1 := by
    simp [countClose, countClose_append, countClose_map_writeEv]
  have hlast :
      lastEvent (Event.openEv name ::
        (ws.map Event.writeEv ++ [Event.closeEv])) = some Event.closeEv := by
    have hsplit :
        Event.openEv name :: (ws.map Event.writeEv ++ [Event.closeEv]) =
          (Event.openEv name :: ws.map Event.writeEv) ++ [Event.closeEv] := by
      simp
    rw [hsplit, lastEvent_concat]
  simp only [hws]
  exact ⟨hcount, hlast, hcount, hlast⟩

/-- C1 witness: a concrete successful scope that writes once. -/
theorem release_runs_exactly_once_after_ops_witness :
    countClose (withManagedFile okEnv "test.txt" [Act.write "Hello, World!"]).trace = 1 ∧
    lastEvent (withManagedFile okEnv "test.txt" [Act.write "Hello, World!"]).trace
      = some Event.closeEv ∧
    countClose (withManagedFileGen okEnv "test.txt" [Act.write "Hello, World!"]).trace = 1 ∧
    lastEvent (withManagedFileGen okEnv "test.txt" [Act.write "Hello, World!"]).trace
      = some Event.closeEv :=
  release_runs_exactly_once_after_ops okEnv "test.txt" [Act.write "Hello, World!"] rfl

/-- C2 counterexample: with an operation error propagating, a failure in
`file.close()` replaces it — the caller observes the release error, not
the original operation error, in both implementations. -/
theorem release_failure_masks_operation_error :
    (withManagedFile maskEnv "test.txt" [Act.write "a", Act.raiseOp]).result
        = Except.error PyErr.releaseError ∧
    (withManagedFile maskEnv "test.txt" [Act.write "a", Act.raiseOp]).result
        ≠ Except.error PyErr.operationError ∧
    (withManagedFileGen maskEnv "test.txt" [Act.write "a", Act.raiseOp]).result
        = Except.error PyErr.releaseError := by
  decide

/-- C2 (amended): when the operation raises after successful acquisition,
release still runs exactly once in both implementations, and when the
release itself does not fail the caller observes the original operation
error; a release failure, however, replaces it. -/
theorem operation_error_preserved_when_release_succeeds (env : Env)
    (name : String) (body : List Act) (h : env.canOpen name = true)
    (hc : env.closeRaises = false)
    (hb : bodyOutcome body = Outcome.raised PyErr.operationError) :
    (withManagedFile env name body).result = Except.error PyErr.operationError ∧
    countClose (withManagedFile env name body).trace = 1 ∧
    (withManagedFileGen env name body).result = Except.error PyErr.operationError ∧
    countClose (withManagedFileGen env name body).trace = 1 := by
  obtain ⟨ws, hws⟩ :=
    runBody_trace_writes body { name := name, content := [], closed := false }
  have hcl := runBody_closed body { name := name, content := [], closed := false }
  rw [withManagedFile_open env name body h, withManagedFileGen_open env name body h]
  have hres : scopeExitResult
      (closeFile env
        (runBody body { name := name, content := [], closed := false }).2.1).2
      (bodyOutcome body) = Except.error PyErr.operationError := by
    simp [closeFile, hcl, hc, hb, scopeExitResult]
  have hcount :
      countClose (Event.openEv name ::
        ((runBody body { name := name, content := [], closed := false }).2.2
          ++ [Event.closeEv])) = 1 := by
    rw [hws]
    simp [countClose, countClose_append, countClose_map_writeEv]
  exact ⟨hres, hcount, hres, hcount⟩

/-- C2 witness: a concrete scope whose body raises, with a release that
succeeds. -/
theorem operation_error_preserved_when_release_succeeds_witness :
    (withManagedFile okEnv "test.txt" [Act.raiseOp]).result
        = Except.error PyErr.operationError ∧
    countClose (withManagedFile okEnv "test.txt" [Act.raiseOp]).trace = 1 ∧
    (withManagedFileGen okEnv "test.txt" [Act.raiseOp]).result
        = Except.error PyErr.operationError ∧
    countClose (withManagedFileGen okEnv "test.txt" [Act.raiseOp]).trace = 1 :=
  operation_error_preserved_when_release_succeeds okEnv "test.txt"
    [Act.raiseOp] rfl rfl rfl

/-- C3: when the open fails, the generator-based `managed_file` still runs
its `finally` clause, whose `f.close()` on the unbound local raises
`UnboundLocalError`; the caller observes that name error instead of the
acquisition error.  No resource close occurs.  The class-based manager, by
contrast, surfaces the acquisition error. -/
theorem gen_acquisition_failure_masked_by_unbound_close :
    (withManagedFileGen failEnv "test.txt" [Act.write "x"]).result
        = Except.error PyErr.nameError ∧
    (withManagedFileGen failEnv "test.txt" [Act.write "x"]).result
        ≠ Except.error PyErr.acquisitionError ∧
    countClose (withManagedFileGen failEnv "test.txt" [Act.write "x"]).trace = 0 ∧
    (withManagedFile failEnv "test.txt" [Act.write "x"]).result
        = Except.error PyErr.acquisitionError ∧
    countClose (withManagedFile failEnv "test.txt" [Act.write "x"]).trace = 0 := by
  decide

/-- C4: after `__enter__` fails at `open`, the attribute `self.file` was
never assigned, so calling `__exit__` is not a harmless no-op: the guard
`if self.file:` itself raises `AttributeError`. -/
theorem exit_after_failed_enter_raises_attribute_error :
    ManagedFile.enter failEnv { name := "missing.txt", file := none }
        = Except.error PyErr.acquisitionError ∧
    (ManagedFile.exit failEnv { name := "missing.txt", file := none }).2
        = some PyErr.attributeError ∧
    (ManagedFile.exit failEnv { name := "missing.txt", file := none }).1
        = { name := "missing.txt", file := none } := by
  decide

/-- C5: every enter increments the shared counter by one, every exit
decrements it by one, after any sequence of operations the counter equals
its original value plus the net number of unmatched enters, and entering
N times then exiting N times returns it to its original value. -/
theorem indenter_level_tracks_unmatched_enters (i : Indenter) (n : Nat)
    (ops : List ScopeOp) :
    (Indenter.enter i).level = i.level + 1 ∧
    (Indenter.exit i).level = i.level - 1 ∧
    (applyOps i ops).level = i.level + countEnters ops - countExits ops ∧
    (applyOps i
      (List.replicate n ScopeOp.enter ++ List.replicate n ScopeOp.exit)).level
        = i.level := by
  refine ⟨rfl, rfl, applyOps_level i ops, ?_⟩
  rw [applyOps_level]
  rw [countEnters_append, countExits_append, countEnters_replicate_enter,
    countEnters_replicate_exit, countExits_replicate_enter,
    countExits_replicate_exit]
  push_cast
  ring

/-- C6: acquiring the writable target `test.txt`, writing `Hello, World!`
and exiting the scope leaves the target content exactly `Hello, World!`
and the resource closed. -/
theorem write_hello_world_scenario :
    (withManagedFileGen okEnv "test.txt" [Act.write "Hello, World!"]).result
        = Except.ok () ∧
    ((withManagedFileGen okEnv "test.txt" [Act.write "Hello, World!"]).finalFile.map
        fileContent) = some "Hello, World!" ∧
    ((withManagedFileGen okEnv "test.txt" [Act.write "Hello, World!"]).finalFile.map
        FileObj.closed) = some true ∧
    (withManagedFile okEnv "test.txt" [Act.write "Hello, World!"]).finalFile
        = (withManagedFileGen okEnv "test.txt" [Act.write "Hello, World!"]).finalFile := by
  decide

/-- C7: every run of either manager follows the state machine
Unopened - Open - Closed: a fresh open file starts with the closed flag
false; when no scope is entered there is no trace and no file; otherwise
the trace is one open event, then the user writes, then exactly one close
event last, and the final file is closed — so nothing uses the resource
after release, and the close is reached on every exit path, including
failure. -/
theorem resource_state_machine_shape (env : Env) (name : String)
    (body : List Act) :
    (openFile env name = Except.error PyErr.acquisitionError ∨
      openFile env name
        = Except.ok { name := name, content := [], closed := false }) ∧
    (((withManagedFile env name body).trace = [] ∧
        (withManagedFile env name body).finalFile = none) ∨
      (∃ ws f, (withManagedFile env name body).trace
            = Event.openEv name :: (List.map Event.writeEv ws ++ [Event.closeEv]) ∧
          (withManagedFile env name body).finalFile = some f ∧ f.closed = true)) ∧
    (((withManagedFileGen env name body).trace = [] ∧
        (withManagedFileGen env name body).finalFile = none) ∨
      (∃ ws f, (withManagedFileGen env name body).trace
            = Event.openEv name :: (List.map Event.writeEv ws ++ [Event.closeEv]) ∧
          (withManagedFileGen env name body).finalFile = some f ∧ f.closed = true)) := by
  cases h : env.canOpen name with
  | false =>
    rw [withManagedFile_openFail env name body h,
      withManagedFileGen_openFail env name body h]
    exact ⟨Or.inl (by simp [openFile, h]), Or.inl ⟨rfl, rfl⟩, Or.inl ⟨rfl, rfl⟩⟩
  | true =>
    obtain ⟨ws, hws⟩ :=
      runBody_trace_writes body { name := name, content := [], closed := false }
    have hcl := runBody_closed body { name := name, content := [], closed := false }
    rw [withManagedFile_open env name body h, withManagedFileGen_open env name body h]
    have hclosed :
        (closeFile env
          (runBody body { name := name, content := [], closed := false }).2.1).1.closed
            = true := by
      simp [closeFile, hcl]
    refine ⟨Or.inr (by simp [openFile, h]), Or.inr ⟨ws, _, ?_, rfl, hclosed⟩,
      Or.inr ⟨ws, _, ?_, rfl, hclosed⟩⟩
    · rw [hws]
    · rw [hws]

/-- C8: the elapsed duration exposed after exit is the difference of the
clock readings at the enter and exit events; whenever a delay of d time
units separates the two readings, the elapsed duration is non-negative
and at least d. -/
theorem timer_elapsed_nonneg_and_reflects_delay (enterTime exitTime : Int)
    (d : Nat) (h : enterTime + d ≤ exitTime) :
    (withTimer enterTime exitTime).elapsed = some (exitTime - enterTime) ∧
    0 ≤ exitTime - enterTime ∧ (d : Int) ≤ exitTime - enterTime := by
  refine ⟨rfl, ?_, ?_⟩ <;> omega

/-- C8 witness: a sleep of 5 units between clock readings 0 and 5. -/
theorem timer_elapsed_nonneg_and_reflects_delay_witness :
    (withTimer 0 5).elapsed = some (5 - 0) ∧
    0 ≤ (5 : Int) - 0 ∧ ((5 : Nat) : Int) ≤ (5 : Int) - 0 :=
  timer_elapsed_nonneg_and_reflects_delay 0 5 5 (by decide)

/-- C9: the class-based and the generator-based manager are not
functionally equivalent: when the open fails, `ManagedFile` surfaces the
acquisition error while `managed_file` raises `UnboundLocalError` from
the `f.close()` in its `finally` clause — contradicting the docstring of
`managed_file`. -/
theorem class_and_generator_managers_diverge_on_open_failure :
    (withManagedFile failEnv "test.txt" [Act.write "Hello, World!"]).result
        = Except.error PyErr.acquisitionError ∧
    (withManagedFileGen failEnv "test.txt" [Act.write "Hello, World!"]).result
        = Except.error PyErr.nameError ∧
    (withManagedFile failEnv "test.txt" [Act.write "Hello, World!"]).result
        ≠ (withManagedFileGen failEnv "test.txt" [Act.write "Hello, World!"]).result := by
  decide

/-- C10: an assert whose tested expression is a non-empty tuple never
raises, because a non-empty tuple is truthy. -/
theorem assert_nonempty_tuple_never_raises (xs : List PyVal) (h : xs ≠ []) :
    assertStmt (PyVal.tuple xs) = Except.ok () := by
  cases xs with
  | nil => cases h rfl
  | cons a t => simp [assertStmt, truthy]

/-- C10 witness: the module-level `assert (1 == 2, "This should fail...")`
succeeds. -/
theorem assert_nonempty_tuple_never_raises_witness :
    moduleAssert = Except.ok () :=
  assert_nonempty_tuple_never_raises
    [PyVal.bool (decide ((1 : Nat) = 2)), PyVal.str "This should fail..."]
    (by simp)
